import Mathlib

/-!
Verification of the Deepfake-Video-KYC anti-spoofing core.

This file shallowly embeds the scoring and alerting engine of the
repository and proves the specified properties about it.

Embedding conventions:
* Python floats are modelled as exact rationals (`ℚ`) in the alerting
  module, whose code only compares scores against rational thresholds,
  and as reals (`ℝ`) in the detection modules, whose code computes
  Euclidean norms and standard deviations (square roots).
* `datetime.now()` is abstracted as an explicit `now : String` argument.
* OpenCV / MediaPipe image operations (cascade face detection, landmark
  extraction, Laplacian/Canny/DCT filters, grayscale conversion) are
  external collaborators: their scalar outputs are taken as explicit
  arguments of the embedded functions, exactly at the boundary where the
  source reads them out of result dictionaries.
-/

namespace KYC

/-! ## `backend/app/services/spoof_alerting.py` -/

/-- `AlertSeverity` enum. -/
inductive AlertSeverity
  | low
  | medium
  | high
  | critical
deriving DecidableEq, Repr

/-- `AlertType` enum. -/
inductive AlertType
  | deepfake_detected
  | liveness_failed
  | unusual_geometry
  | texture_anomaly
  | blink_pattern_anomaly
  | temporal_inconsistency
  | face_not_detected
  | multiple_faces
deriving DecidableEq, Repr

/-- The `Alert` dataclass.  The free-form `details` payload is not
modelled (no claim touches it). -/
structure Alert where
  alert_id : String
  alert_type : AlertType
  severity : AlertSeverity
  timestamp : String
  user_id : Option String
  session_id : String
  message : String
  status : String := "active"
  acknowledged_at : Option String := none
  acknowledged_by : Option String := none
deriving DecidableEq, Repr

/-- `SpoofAlertingService.create_alert`: builds the `Alert` record.
`alert_id = f"{session_id}_{datetime.now().isoformat()}"`; the current
time is the explicit `now` argument.  (The service also appends the
alert to `self.alerts` and the dispatch queue; the store update is
modelled at each call site as a list append.) -/
def create_alert (now : String) (alert_type : AlertType) (session_id : String)
    (severity : AlertSeverity) (message : String) (user_id : Option String) : Alert :=
  { alert_id := session_id ++ "_" ++ now
    alert_type := alert_type
    severity := severity
    timestamp := now
    user_id := user_id
    session_id := session_id
    message := message }

/-- The `indicators` dict read by `determine_alert_severity` via
`indicators.get(key, default)`: a total record with the dict defaults. -/
structure Indicators where
  blink_pattern_anomaly : ℚ := 0
  texture_anomaly : ℚ := 0
  geometry_inconsistency : ℚ := 0
  temporal_anomaly : ℚ := 0
  face_not_detected : Bool := false
deriving DecidableEq, Repr

/-- The `critical_indicators` list in `determine_alert_severity`. -/
def critical_indicators (deepfake_score liveness_score : ℚ)
    (indicators : Indicators) : List Bool :=
  [decide (deepfake_score > 0.85),
   decide (liveness_score < 0.2),
   decide (indicators.blink_pattern_anomaly > 0.8),
   decide (indicators.texture_anomaly > 0.9),
   indicators.face_not_detected]

/-- The `high_indicators` list in `determine_alert_severity`. -/
def high_indicators (deepfake_score liveness_score : ℚ)
    (indicators : Indicators) : List Bool :=
  [decide (deepfake_score > 0.7),
   decide (liveness_score < 0.35),
   decide (indicators.texture_anomaly > 0.7),
   decide (indicators.geometry_inconsistency > 0.8)]

/-- The `medium_indicators` list in `determine_alert_severity`. -/
def medium_indicators (deepfake_score liveness_score : ℚ)
    (indicators : Indicators) : List Bool :=
  [decide (deepfake_score > 0.55),
   decide (liveness_score < 0.5),
   decide (indicators.temporal_anomaly > 0.6)]

/-- `SpoofAlertingService.determine_alert_severity`: the severity
cascade.  `sum(bool_list)` is the number of `True` entries, i.e.
`List.count true`. -/
def determine_alert_severity (deepfake_score liveness_score : ℚ)
    (indicators : Indicators) : AlertSeverity :=
  if 2 ≤ (critical_indicators deepfake_score liveness_score indicators).count true
      ∨ deepfake_score > 0.85 then
    .critical
  else if 2 ≤ (high_indicators deepfake_score liveness_score indicators).count true
      ∨ deepfake_score > 0.75 then
    .high
  else if 1 ≤ (medium_indicators deepfake_score liveness_score indicators).count true then
    .medium
  else
    .low

/-- The `self.thresholds["deepfake_score"]` entry. -/
def thresholds_deepfake_score : ℚ := 0.6

/-- The `self.thresholds["liveness_score"]` entry. -/
def thresholds_liveness_score : ℚ := 0.5

/-- The fields of the `deepfake_analysis` dict that
`evaluate_verification_result` reads (`.get` defaults shown). -/
structure DeepfakeAnalysis where
  deepfake_score : ℚ := 0
  face_detected : Bool := false
  indicators : Indicators := {}
deriving DecidableEq, Repr

/-- The field of the `liveness_analysis` dict that
`evaluate_verification_result` reads. -/
structure LivenessAnalysis where
  liveness_score : ℚ := 0
deriving DecidableEq, Repr

/-- The `verification_result` dict built by
`evaluate_verification_result`. -/
structure VerificationResult where
  session_id : String
  user_id : Option String
  verified : Bool
  alerts : List Alert
  recommendations : List String
  status : String
deriving DecidableEq, Repr

/-- `SpoofAlertingService.evaluate_verification_result`: runs the three
checks in order, each appending an alert and a recommendation, then
derives the overall verdict.  (The numeric score interpolated into the
alert message strings is elided.) -/
def evaluate_verification_result (now session_id : String) (user_id : Option String)
    (deepfake_analysis : DeepfakeAnalysis) (liveness_analysis : LivenessAnalysis) :
    VerificationResult :=
  let deepfake_score := deepfake_analysis.deepfake_score
  let liveness_score := liveness_analysis.liveness_score
  let acc1 : List Alert × List String :=
    if deepfake_score > thresholds_deepfake_score then
      ([create_alert now .deepfake_detected session_id
          (determine_alert_severity deepfake_score liveness_score
            deepfake_analysis.indicators)
          "Potential deepfake detected" user_id],
       ["REJECT - Deepfake indicators detected"])
    else ([], [])
  let acc2 : List Alert × List String :=
    if liveness_score < thresholds_liveness_score then
      (acc1.1 ++ [create_alert now .liveness_failed session_id .high
          "Liveness check failed" user_id],
       acc1.2 ++ ["REJECT - Liveness verification failed"])
    else acc1
  let acc3 : List Alert × List String :=
    if !deepfake_analysis.face_detected then
      (acc2.1 ++ [create_alert now .face_not_detected session_id .medium
          "Face could not be detected in video" user_id],
       acc2.2 ++ ["REJECT - Face not detected"])
    else acc2
  if acc3.1.isEmpty then
    { session_id := session_id, user_id := user_id, verified := true,
      alerts := acc3.1,
      recommendations := acc3.2 ++ ["APPROVE - Identity verification passed"],
      status := "PASSED" }
  else
    { session_id := session_id, user_id := user_id, verified := false,
      alerts := acc3.1, recommendations := acc3.2, status := "FAILED" }

/-- `SpoofAlertingService.acknowledge_alert`: scans `self.alerts` for the
first alert with the given id, mutates it and returns `True`; returns
`False` when no id matches.  Modelled as (new store, returned Bool). -/
def acknowledge_alert : List Alert → String → String → String → List Alert × Bool
  | [], _, _, _ => ([], false)
  | a :: rest, alert_id, acknowledged_by, now =>
    if a.alert_id = alert_id then
      ({ a with
          status := "acknowledged"
          acknowledged_at := some now
          acknowledged_by := some acknowledged_by } :: rest, true)
    else
      let r := acknowledge_alert rest alert_id acknowledged_by now
      (a :: r.1, r.2)

/-! ## History buffers

`DeepfakeDetector.__init__` sets `history_size` (default 30); the
detector's `blink_history`, `face_geometry_history` and `frame_history`
all follow the same pattern after appending a new entry:

    if len(history) > self.history_size:
        history.pop(0)
-/

/-- One push into a history buffer: append, then evict the oldest entry
when the buffer has grown past `history_size`. -/
def push_history (history_size : ℕ) (history : List α) (x : α) : List α :=
  let h := history ++ [x]
  if history_size < h.length then h.drop 1 else h

/-- A sequence of pushes starting from the empty buffer the detector is
initialized with. -/
def push_all (history_size : ℕ) (xs : List α) : List α :=
  xs.foldl (push_history history_size) []

/-- The default `history_size` of `DeepfakeDetector.__init__`. -/
def history_size_default : ℕ := 30

/-! ## `backend/app/services/liveness_detection.py` and the pure parts
of `backend/app/services/deepfake_detection.py`

Landmarks are 3-D points (MediaPipe `[x, y, z]`).  Scores are reals;
`np.linalg.norm` of a point difference is the Euclidean distance. -/

/-- A 3-D landmark point. -/
abbrev Point : Type := ℝ × ℝ × ℝ

/-- `np.linalg.norm(p - q)` for 3-D points. -/
noncomputable def dist3 (p q : Point) : ℝ :=
  Real.sqrt ((p.1 - q.1) ^ 2 + (p.2.1 - q.2.1) ^ 2 + (p.2.2 - q.2.2) ^ 2)

/-- `np.clip(x, lo, hi)`. -/
noncomputable def np_clip (x lo hi : ℝ) : ℝ := min hi (max lo x)

/-- `np.mean` of a 1-D array (0 for the empty array, where NumPy would
produce NaN; the guarded call sites never pass an empty array). -/
noncomputable def np_mean (l : List ℝ) : ℝ := l.sum / l.length

/-- `np.var` of a 1-D array: population variance. -/
noncomputable def np_variance (l : List ℝ) : ℝ :=
  (l.map (fun x => (x - np_mean l) ^ 2)).sum / l.length

/-- `np.std` of a 1-D array. -/
noncomputable def np_std (l : List ℝ) : ℝ := Real.sqrt (np_variance l)

/-- `np.median` of a 1-D array: middle element of the sorted array, or
the average of the two middle elements (0 for the empty array, where
NumPy would produce NaN). -/
noncomputable def np_median (l : List ℝ) : ℝ :=
  let s := l.mergeSort (fun a b => decide (a ≤ b))
  if l.length = 0 then 0
  else if l.length % 2 = 1 then s.getD (l.length / 2) 0
  else (s.getD (l.length / 2 - 1) 0 + s.getD (l.length / 2) 0) / 2

/-- `LEFT_EYE` landmark indices (`detect_blink` / `analyze_blink_patterns`). -/
def LEFT_EYE : List ℕ := [362, 385, 387, 263, 373, 380]

/-- `RIGHT_EYE` landmark indices (`detect_blink` / `analyze_blink_patterns`). -/
def RIGHT_EYE : List ℕ := [33, 160, 158, 133, 153, 144]

/-- NumPy fancy indexing `landmarks[idxs]`. -/
def select (lm : List Point) (idxs : List ℕ) : List Point :=
  idxs.map (fun i => lm.getD i (0, 0, 0))

/-- The nested `eye_aspect_ratio` helper of `detect_blink` (and of
`analyze_blink_patterns`): `(A + B) / (2·C)` with a zero fallback when
the horizontal eye distance `C` is zero. -/
noncomputable def eye_aspect_ratio (eye_points : List Point) : ℝ :=
  let A := dist3 (eye_points.getD 1 (0, 0, 0)) (eye_points.getD 5 (0, 0, 0))
  let B := dist3 (eye_points.getD 2 (0, 0, 0)) (eye_points.getD 4 (0, 0, 0))
  let C := dist3 (eye_points.getD 0 (0, 0, 0)) (eye_points.getD 3 (0, 0, 0))
  if C > 0 then (A + B) / (2 * C) else 0

/-- `LivenessDetector.detect_blink`: returns `(is_blink, confidence)`.
`None` and landmark arrays shorter than 400 points yield the neutral
`(False, 0.0)`. -/
noncomputable def detect_blink (landmarks : Option (List Point)) : Bool × ℝ :=
  match landmarks with
  | none => (false, 0)
  | some lm =>
    if lm.length = 0 then (false, 0)
    else if lm.length < 400 then (false, 0)
    else
      let left_ear := eye_aspect_ratio (select lm LEFT_EYE)
      let right_ear := eye_aspect_ratio (select lm RIGHT_EYE)
      let avg_ear := (left_ear + right_ear) / 2
      let confidence := if avg_ear < 0.15 then 1 - avg_ear else 0
      (decide (avg_ear < 0.15), min confidence 1)

/-- `np.mean(landmarks, axis=0)`: the component-wise centroid (0 for the
empty list, where NumPy would produce NaN; MediaPipe landmark sets are
never empty). -/
noncomputable def centroid (lm : List Point) : Point :=
  ((lm.map (fun p => p.1)).sum / lm.length,
   (lm.map (fun p => p.2.1)).sum / lm.length,
   (lm.map (fun p => p.2.2)).sum / lm.length)

/-- `LivenessDetector.detect_head_movement`: returns
`(movement_detected, confidence, new prev_frame_landmarks)`.  The first
frame stores the landmarks and reports no movement. -/
noncomputable def detect_head_movement (prev : Option (List Point))
    (current_landmarks : Option (List Point)) : Bool × ℝ × Option (List Point) :=
  match current_landmarks with
  | none => (false, 0, prev)
  | some cur =>
    match prev with
    | none => (false, 0, some cur)
    | some pv =>
      let displacement := dist3 (centroid cur) (centroid pv)
      let confidence := if displacement > 15 then min (displacement / 15) 1 else 0
      (decide (displacement > 15), confidence, some cur)

/-- `LivenessDetector.detect_mouth_open`: returns `(mouth_open,
confidence)`; `None` and landmark arrays shorter than 400 points yield
the neutral `(False, 0.0)`. -/
noncomputable def detect_mouth_open (landmarks : Option (List Point)) : Bool × ℝ :=
  match landmarks with
  | none => (false, 0)
  | some lm =>
    if lm.length < 400 then (false, 0)
    else
      let mouth_top := lm.getD 13 (0, 0, 0)
      let mouth_bottom := lm.getD 14 (0, 0, 0)
      let mouth_distance := dist3 mouth_bottom mouth_top
      let confidence := if mouth_distance > 20 then min (mouth_distance / 20) 1 else 0
      (decide (mouth_distance > 20), min confidence 1)

/-- `LivenessDetector.detect_motion_in_frame` on the grayscale pixel
values of the current frame: returns `(motion score, new stored frame)`.
`cv2.absdiff` is the pointwise absolute difference.  (The source stores
the gray frame in the `prev_frame_landmarks` attribute it shares with
`detect_head_movement`; the two previous-state slots are kept separate
here, which no verified claim depends on.) -/
noncomputable def detect_motion_in_frame (prev_gray : Option (List ℝ))
    (gray : List ℝ) : ℝ × Option (List ℝ) :=
  match prev_gray with
  | none => (0.2, some gray)
  | some pg =>
    let frame_diff := List.zipWith (fun a b => |a - b|) gray pg
    let motion_magnitude := np_median frame_diff
    (min (motion_magnitude / 50) 1, some gray)

/-- The default `confidence_threshold` of `LivenessDetector.__init__`. -/
noncomputable def confidence_threshold_default : ℝ := 0.7

/-- The fields of the dict returned by `LivenessDetector.process_frame`
(the nested `detections` sub-dicts are flattened). -/
structure LivenessFrameResult where
  face_detected : Bool
  liveness_score : ℝ
  is_likely_live : Bool
  blink_detected : Bool
  blink_conf : ℝ
  move_detected : Bool
  move_conf : ℝ
  mouth_open : Bool
  mouth_conf : ℝ

/-- `LivenessDetector.process_frame` (main path, non-empty frame):
`face_detected` comes from the OpenCV cascade and `landmarks` from
MediaPipe, both external collaborators; `gray` is the grayscale frame
used by the motion fallback.  The three detector calls, the weighted
liveness score, the 0.5 floor when no landmarks were found for a
detected face, and the `is_likely_live` threshold comparison mirror the
source. -/
noncomputable def liveness_process_frame (confidence_threshold : ℝ)
    (face_detected : Bool) (landmarks : Option (List Point))
    (prev_landmarks : Option (List Point)) (prev_gray : Option (List ℝ))
    (gray : List ℝ) : LivenessFrameResult :=
  let checks : (Bool × ℝ) × (Bool × ℝ) × (Bool × ℝ) :=
    match landmarks with
    | some _ =>
      (detect_blink landmarks,
       ((detect_head_movement prev_landmarks landmarks).1,
        (detect_head_movement prev_landmarks landmarks).2.1),
       detect_mouth_open landmarks)
    | none =>
      ((false, 0), (false, (detect_motion_in_frame prev_gray gray).1), (false, 0))
  let blink_conf := checks.1.2
  let move_conf := checks.2.1.2
  let mouth_conf := checks.2.2.2
  let score0 := blink_conf * 0.3 + move_conf * 0.4 + mouth_conf * 0.3
  let liveness_score :=
    if landmarks.isNone ∧ face_detected = true then max score0 0.5 else score0
  { face_detected := face_detected
    liveness_score := liveness_score
    is_likely_live := decide (liveness_score > confidence_threshold)
    blink_detected := checks.1.1
    blink_conf := blink_conf
    move_detected := checks.2.1.1
    move_conf := move_conf
    mouth_open := checks.2.2.1
    mouth_conf := mouth_conf }

/-! ## Deepfake detector signal functions -/

/-- `DeepfakeDetector._compute_texture_anomaly_score`: the weighted
texture anomaly, clipped to `[0, 1]`.  Its four scalar arguments are
the image statistics computed upstream by OpenCV. -/
noncomputable def _compute_texture_anomaly_score
    (laplacian_var edge_density smoothness boundary_artifacts : ℝ) : ℝ :=
  np_clip ((1 - np_clip (laplacian_var / 1000) 0 1) * 0.3 +
           (1 - edge_density) * 0.3 +
           smoothness * 0.2 +
           boundary_artifacts * 0.2) 0 1

/-- `scipy.signal.correlate(xs, xs, mode='full')` restricted to its
second half and indexed by the lag `k`:
`correlation[len//2 + k] = Σ_i xs[i] * xs[i+k]`. -/
noncomputable def autocorr (xs : List ℝ) (k : ℕ) : ℝ :=
  (Finset.range (xs.length - k)).sum (fun i => xs.getD i 0 * xs.getD (i + k) 0)

/-- The lag window `[10, min(50, n))` over which
`_detect_blink_pattern_anomaly` takes the autocorrelation peak. -/
def lag_window (n : ℕ) : List ℕ := List.range' 10 (min 50 n - 10)

/-- `np.max` of a non-empty 1-D array (0 for the empty array). -/
noncomputable def list_max : List ℝ → ℝ
  | [] => 0
  | x :: xs => xs.foldl max x

/-- `DeepfakeDetector._detect_blink_pattern_anomaly` as a function of
`self.blink_history`: 0 with fewer than 20 samples; 1 when the history
is flat (`np.std < 1e-6`); otherwise `clip(peak - 0.5, 0, 1)` where
`peak` is the maximum of the autocorrelation normalized by its lag-0
value over the lag window.  (The source divides the whole correlation
array by `correlation[0]` before taking the maximum; with
`correlation[0] > 0` — which holds whenever the flat-history branch was
not taken — that is the maximum of the normalized values.) -/
noncomputable def _detect_blink_pattern_anomaly (blink_history : List ℝ) : ℝ :=
  if blink_history.length < 20 then 0
  else if np_std blink_history < 1e-6 then 1
  else
    let peak := list_max ((lag_window blink_history.length).map
      (fun k => autocorr blink_history k / autocorr blink_history 0))
    np_clip (peak - 0.5) 0 1

/-- `DeepfakeDetector._analyze_geometry_consistency` as a function of
the `width_height_ratio` entries of `self.face_geometry_history`:
0 with fewer than 5 samples, else `clip(max(0, 1 - std/0.1), 0, 1)`. -/
noncomputable def _analyze_geometry_consistency (ratios : List ℝ) : ℝ :=
  if ratios.length < 5 then 0
  else np_clip (max 0 (1 - np_std ratios / 0.1)) 0 1

/-- The anomaly computation of
`DeepfakeDetector.analyze_temporal_consistency` as a function of the
consecutive-frame mean absolute differences (`frame_diffs`): fewer than
3 stored frames (fewer than 2 differences) yield 0, otherwise
`clip(var(frame_diffs)/1000, 0, 1)`. -/
noncomputable def temporal_anomaly_of_diffs (frame_diffs : List ℝ) : ℝ :=
  if frame_diffs.length ≤ 1 then 0
  else np_clip (np_variance frame_diffs / 1000) 0 1

/-- The fields of the dict returned by `DeepfakeDetector.process_frame`
that the claims read.  (The no-face return dict carries no
`is_likely_deepfake` key; the field is `false` there.) -/
structure DeepfakeFrameResult where
  face_detected : Bool
  deepfake_score : ℝ
  is_likely_deepfake : Bool

/-- `DeepfakeDetector.process_frame` (reachable path): face detection
and landmark extraction are external collaborators (`face_detected`,
`landmarks_available`), and the four sub-analysis scores are the values
the source reads back out of the sub-analysis dicts.  With landmarks the
composite score is the 0.35/0.25/0.2/0.2 weighted sum and the frame
flag threshold is 0.5; without landmarks the reduced estimate
`0.5·texture + 0.2` is used and the flag threshold is 0.6.  The reported
score is clipped to `[0, 1]`; the flag compares the unclipped score. -/
noncomputable def deepfake_process_frame (face_detected landmarks_available : Bool)
    (texture_anomaly_score blink_pattern_anomaly_score geometry_consistency_score
      temporal_anomaly_score : ℝ) : DeepfakeFrameResult :=
  if face_detected = false then
    { face_detected := false, deepfake_score := 0, is_likely_deepfake := false }
  else if landmarks_available = false then
    let deepfake_score := texture_anomaly_score * 0.5 + 0.2
    { face_detected := true
      deepfake_score := np_clip deepfake_score 0 1
      is_likely_deepfake := decide (deepfake_score > 0.6) }
  else
    let deepfake_score :=
      texture_anomaly_score * 0.35 + blink_pattern_anomaly_score * 0.25 +
        geometry_consistency_score * 0.2 + temporal_anomaly_score * 0.2
    { face_detected := true
      deepfake_score := np_clip deepfake_score 0 1
      is_likely_deepfake := decide (deepfake_score > 0.5) }

/-! ## Theorems -/

/-- C2: the Severity Classifier is a priority cascade: CRITICAL when
`deepfake_score > 0.85` or at least 2 of the critical indicators
(`deepfake_score > 0.85`, `liveness_score < 0.2`,
blink-periodicity anomaly `> 0.8`, texture anomaly `> 0.9`, face not
detected) hold; otherwise HIGH when `deepfake_score > 0.75` or at least
2 of the high indicators hold; otherwise MEDIUM when at least 1 medium
indicator holds; otherwise LOW. -/
theorem spec_C2 (deepfake_score liveness_score : ℚ) (indicators : Indicators) :
    (determine_alert_severity deepfake_score liveness_score indicators =
        AlertSeverity.critical ↔
      (deepfake_score > 0.85 ∨
        2 ≤ (critical_indicators deepfake_score liveness_score indicators).count true))
    ∧ (¬ (deepfake_score > 0.85 ∨
          2 ≤ (critical_indicators deepfake_score liveness_score indicators).count true) →
        (determine_alert_severity deepfake_score liveness_score indicators =
            AlertSeverity.high ↔
          (deepfake_score > 0.75 ∨
            2 ≤ (high_indicators deepfake_score liveness_score indicators).count true)))
    ∧ (¬ (deepfake_score > 0.85 ∨
          2 ≤ (critical_indicators deepfake_score liveness_score indicators).count true) →
       ¬ (deepfake_score > 0.75 ∨
          2 ≤ (high_indicators deepfake_score liveness_score indicators).count true) →
        (determine_alert_severity deepfake_score liveness_score indicators =
            AlertSeverity.medium ↔
          1 ≤ (medium_indicators deepfake_score liveness_score indicators).count true))
    ∧ (¬ (deepfake_score > 0.85 ∨
          2 ≤ (critical_indicators deepfake_score liveness_score indicators).count true) →
       ¬ (deepfake_score > 0.75 ∨
          2 ≤ (high_indicators deepfake_score liveness_score indicators).count true) →
       ¬ 1 ≤ (medium_indicators deepfake_score liveness_score indicators).count true →
        determine_alert_severity deepfake_score liveness_score indicators =
          AlertSeverity.low) := by
  refine ⟨?_, ?_, ?_, ?_⟩
  · unfold determine_alert_severity
    split_ifs with h1 h2 h3 <;> simp_all [not_or, not_lt, not_le] <;> tauto
  · intro hn
    have h1 : ¬ (2 ≤ (critical_indicators deepfake_score liveness_score indicators).count true
        ∨ deepfake_score > 0.85) := by tauto
    unfold determine_alert_severity
    rw [if_neg h1]
    split_ifs with h2 h3 <;> simp_all [not_or, not_lt, not_le] <;> tauto
  · intro hn hn2
    have h1 : ¬ (2 ≤ (critical_indicators deepfake_score liveness_score indicators).count true
        ∨ deepfake_score > 0.85) := by tauto
    have h2 : ¬ (2 ≤ (high_indicators deepfake_score liveness_score indicators).count true
        ∨ deepfake_score > 0.75) := by tauto
    unfold determine_alert_severity
    rw [if_neg h1, if_neg h2]
    split_ifs with h3 <;> simp_all [not_or, not_lt, not_le]
  · intro hn hn2 hn3
    have h1 : ¬ (2 ≤ (critical_indicators deepfake_score liveness_score indicators).count true
        ∨ deepfake_score > 0.85) := by tauto
    have h2 : ¬ (2 ≤ (high_indicators deepfake_score liveness_score indicators).count true
        ∨ deepfake_score > 0.75) := by tauto
    unfold determine_alert_severity
    rw [if_neg h1, if_neg h2, if_neg hn3]

/-- C1: the Verification Adjudicator runs all three checks without
short-circuiting: `deepfake_score > 0.6` raises a DEEPFAKE_DETECTED
alert at the classified severity, `liveness_score < 0.5` raises a
LIVENESS_FAILED alert at HIGH, no detected face raises a
FACE_NOT_DETECTED alert at MEDIUM; `verified = true` and
`status = PASSED` exactly when zero alerts were raised (with the
approval recommendation), otherwise `verified = false`,
`status = FAILED` with one alert and one reject recommendation per
triggered check. -/
theorem spec_C1 (now session_id : String) (user_id : Option String)
    (dfa : DeepfakeAnalysis) (lva : LivenessAnalysis) :
    (((evaluate_verification_result now session_id user_id dfa lva).verified = true ∧
      (evaluate_verification_result now session_id user_id dfa lva).status = "PASSED") ↔
      (evaluate_verification_result now session_id user_id dfa lva).alerts = [])
    ∧ (((evaluate_verification_result now session_id user_id dfa lva).verified = false ∧
       (evaluate_verification_result now session_id user_id dfa lva).status = "FAILED") ↔
       (evaluate_verification_result now session_id user_id dfa lva).alerts ≠ [])
    ∧ ((evaluate_verification_result now session_id user_id dfa lva).alerts = [] ↔
        (dfa.deepfake_score ≤ 0.6 ∧ 0.5 ≤ lva.liveness_score ∧ dfa.face_detected = true))
    ∧ (evaluate_verification_result now session_id user_id dfa lva).alerts.length =
        ((if dfa.deepfake_score > 0.6 then 1 else 0) +
         (if lva.liveness_score < 0.5 then 1 else 0) +
         (if dfa.face_detected then 0 else 1))
    ∧ (evaluate_verification_result now session_id user_id dfa lva).recommendations.length =
        (if (evaluate_verification_result now session_id user_id dfa lva).alerts = []
         then 1
         else (evaluate_verification_result now session_id user_id dfa lva).alerts.length)
    ∧ (dfa.deepfake_score > 0.6 →
        (∃ a ∈ (evaluate_verification_result now session_id user_id dfa lva).alerts,
          a.alert_type = AlertType.deepfake_detected ∧
          a.severity = determine_alert_severity dfa.deepfake_score lva.liveness_score
            dfa.indicators) ∧
        "REJECT - Deepfake indicators detected" ∈
          (evaluate_verification_result now session_id user_id dfa lva).recommendations)
    ∧ (lva.liveness_score < 0.5 →
        (∃ a ∈ (evaluate_verification_result now session_id user_id dfa lva).alerts,
          a.alert_type = AlertType.liveness_failed ∧ a.severity = AlertSeverity.high) ∧
        "REJECT - Liveness verification failed" ∈
          (evaluate_verification_result now session_id user_id dfa lva).recommendations)
    ∧ (dfa.face_detected = false →
        (∃ a ∈ (evaluate_verification_result now session_id user_id dfa lva).alerts,
          a.alert_type = AlertType.face_not_detected ∧ a.severity = AlertSeverity.medium) ∧
        "REJECT - Face not detected" ∈
          (evaluate_verification_result now session_id user_id dfa lva).recommendations)
    ∧ ((evaluate_verification_result now session_id user_id dfa lva).alerts = [] →
        (evaluate_verification_result now session_id user_id dfa lva).recommendations =
          ["APPROVE - Identity verification passed"]) := by
  obtain ⟨df, face, ind⟩ := dfa
  obtain ⟨lv⟩ := lva
  by_cases h1 : df > (0.6 : ℚ) <;>
    by_cases h2 : lv < (0.5 : ℚ) <;>
    by_cases h3 : face = true <;>
    simp [evaluate_verification_result, create_alert,
      thresholds_deepfake_score, thresholds_liveness_score, h1, h2, h3] <;>
    simp_all [not_lt]

/-- C3: evaluating the Severity Classifier at the spec's two test
vectors.  At `(deepfake=0.85, liveness=0.1, {})` the code returns HIGH,
not the CRITICAL the spec and the repository's own test assert:
`0.85 > 0.85` is false, so only one critical indicator
(`liveness < 0.2`) holds, while two high indicators hold.  At
`(deepfake=0.4, liveness=0.8, {})` it returns LOW as specified. -/
theorem spec_C3_eval :
    determine_alert_severity 0.85 0.1 {} = AlertSeverity.high
    ∧ determine_alert_severity 0.4 0.8 {} = AlertSeverity.low := by
  constructor <;>
    norm_num [determine_alert_severity, critical_indicators, high_indicators,
      medium_indicators]

/-- Behaviour of `acknowledge_alert` on an arbitrary store. -/
theorem acknowledge_alert_props (alerts : List Alert)
    (alert_id acknowledged_by now : String) :
    ((acknowledge_alert alerts alert_id acknowledged_by now).2 = true ↔
      ∃ a ∈ alerts, a.alert_id = alert_id)
    ∧ ((acknowledge_alert alerts alert_id acknowledged_by now).2 = false →
        (acknowledge_alert alerts alert_id acknowledged_by now).1 = alerts)
    ∧ ((acknowledge_alert alerts alert_id acknowledged_by now).2 = true →
        ∃ a ∈ (acknowledge_alert alerts alert_id acknowledged_by now).1,
          a.alert_id = alert_id ∧ a.status = "acknowledged" ∧
          a.acknowledged_by = some acknowledged_by ∧
          a.acknowledged_at = some now) := by
  induction alerts with
  | nil => simp [acknowledge_alert]
  | cons a rest ih =>
    by_cases h : a.alert_id = alert_id
    · simp [acknowledge_alert, h]
    · refine ⟨?_, ?_, ?_⟩
      · simpa [acknowledge_alert, h] using ih.1
      · intro hf
        have := ih.2.1 (by simpa [acknowledge_alert, h] using hf)
        simp [acknowledge_alert, h, this]
      · intro ht
        obtain ⟨b, hb, hprops⟩ := ih.2.2 (by simpa [acknowledge_alert, h] using ht)
        exact ⟨b, by simp [acknowledge_alert, h, hb], hprops⟩

/-- C4 counterexample: a store holding a single already-acknowledged
alert with id `"a"` contains no active alert with that id, yet
`acknowledge_alert` succeeds on it (the source never checks `status`),
contradicting "succeeds exactly when an active alert with that id
exists". -/
theorem spec_C4_counterexample :
    ¬ (∃ a ∈ [Alert.mk "a" AlertType.face_not_detected AlertSeverity.medium
          "t0" none "s" "m" "acknowledged" (some "t0") (some "op0")],
        a.alert_id = "a" ∧ a.status = "active")
    ∧ (acknowledge_alert
        [Alert.mk "a" AlertType.face_not_detected AlertSeverity.medium
          "t0" none "s" "m" "acknowledged" (some "t0") (some "op0")]
        "a" "op1" "t1").2 = true := by
  constructor
  · simp [acknowledge_alert]
  · rfl

/-- C4 (amended): every alert is created with status `active`; the
acknowledge operation succeeds exactly when an alert with the given id
exists in the store, regardless of its status (re-acknowledging an
already-acknowledged alert succeeds and overwrites acknowledger and
time); on success the matching alert has status `acknowledged` with
acknowledger and time recorded, and on failure (no alert with that id)
the store is unchanged. -/
theorem spec_C4_amended (alerts : List Alert) (alert_id acknowledged_by now : String) :
    (∀ (nw : String) (ty : AlertType) (sid : String) (sev : AlertSeverity)
        (msg : String) (uid : Option String),
      (create_alert nw ty sid sev msg uid).status = "active")
    ∧ ((acknowledge_alert alerts alert_id acknowledged_by now).2 = true ↔
        ∃ a ∈ alerts, a.alert_id = alert_id)
    ∧ ((acknowledge_alert alerts alert_id acknowledged_by now).2 = false →
        (acknowledge_alert alerts alert_id acknowledged_by now).1 = alerts)
    ∧ ((acknowledge_alert alerts alert_id acknowledged_by now).2 = true →
        ∃ a ∈ (acknowledge_alert alerts alert_id acknowledged_by now).1,
          a.alert_id = alert_id ∧ a.status = "acknowledged" ∧
          a.acknowledged_by = some acknowledged_by ∧
          a.acknowledged_at = some now) :=
  ⟨fun _ _ _ _ _ _ => rfl,
   (acknowledge_alert_props alerts alert_id acknowledged_by now).1,
   (acknowledge_alert_props alerts alert_id acknowledged_by now).2.1,
   (acknowledge_alert_props alerts alert_id acknowledged_by now).2.2⟩

/-- One push, characterized: with the buffer within capacity, pushing
appends the new entry and, exactly when the buffer was full, evicts the
single oldest entry. -/
theorem push_history_eq (history_size : ℕ) (l : List α) (x : α)
    (h : l.length ≤ history_size) :
    push_history history_size l x = (l ++ [x]).drop (l.length + 1 - history_size) := by
  unfold push_history
  rcases Nat.lt_or_ge l.length history_size with hlt | hge
  · rw [if_neg (by simp; omega)]
    have : l.length + 1 - history_size = 0 := by omega
    simp [this]
  · have hfull : l.length = history_size := le_antisymm h hge
    rw [if_pos (by simp; omega)]
    have : l.length + 1 - history_size = 1 := by omega
    simp [this]

/-- Any number of pushes from the empty buffer keeps exactly the most
recent `history_size` entries, in order. -/
theorem push_all_eq (history_size : ℕ) (xs : List α) :
    push_all history_size xs = xs.drop (xs.length - history_size) := by
  induction xs using List.reverseRecOn with
  | nil => simp [push_all]
  | append_singleton xs x ih =>
    have hstep : push_all history_size (xs ++ [x]) =
        push_history history_size (push_all history_size xs) x := by
      simp [push_all, List.foldl_append]
    have hlen : (push_all history_size xs).length ≤ history_size := by
      rw [ih]
      simp
      omega
    rw [hstep, push_history_eq history_size _ x hlen, ih]
    have hdm : xs.drop (xs.length - history_size) ++ [x] =
        (xs ++ [x]).drop (xs.length - history_size) := by
      rw [List.drop_append_eq_append_drop,
        Nat.sub_eq_zero_of_le (by omega : xs.length - history_size ≤ xs.length)]
      simp
    rw [hdm, List.drop_drop]
    congr 1
    simp
    omega

/-- C7: every history buffer (`blink_history`, `face_geometry_history`,
`frame_history` all share the push pattern embedded as `push_history`)
holds at most `history_size` entries (default 30) after any number of
pushes, the single oldest entry being the one evicted on overflow: the
surviving entries are exactly the `history_size` most recent pushes. -/
theorem spec_C7 (α : Type) (history_size : ℕ) (xs l : List α) (x : α) :
    (push_all history_size xs = xs.drop (xs.length - history_size))
    ∧ (push_all history_size xs).length ≤ history_size
    ∧ (push_all history_size_default xs).length ≤ history_size_default
    ∧ (l.length ≤ history_size →
        push_history history_size l x =
          (l ++ [x]).drop (l.length + 1 - history_size)) := by
  refine ⟨push_all_eq history_size xs, ?_, ?_, push_history_eq history_size l x⟩
  · rw [push_all_eq]
    simp
    omega
  · rw [push_all_eq]
    simp
    omega

/-- C10: both `detect_blink` and `detect_mouth_open` return the neutral
`(False, 0.0)` for `None` and for every landmark array shorter than the
400 points they require, rather than raising. -/
theorem spec_C10 :
    (detect_blink none = (false, 0) ∧ detect_mouth_open none = (false, 0))
    ∧ ∀ lm : List Point, lm.length < 400 →
        detect_blink (some lm) = (false, 0) ∧ detect_mouth_open (some lm) = (false, 0) := by
  refine ⟨⟨rfl, rfl⟩, fun lm h => ⟨?_, ?_⟩⟩
  · by_cases h0 : lm.length = 0 <;> simp [detect_blink, h0, h]
  · simp [detect_mouth_open, h]

/-- `np.clip(x, 0, 1)` is the identity on `[0, 1]`. -/
theorem np_clip_eq_self {x : ℝ} (h0 : 0 ≤ x) (h1 : x ≤ 1) : np_clip x 0 1 = x := by
  unfold np_clip
  rw [max_eq_right h0, min_eq_right h1]

/-- `np.clip(x, 0, 1)` lands in `[0, 1]`. -/
theorem np_clip_mem (x : ℝ) : 0 ≤ np_clip x 0 1 ∧ np_clip x 0 1 ≤ 1 :=
  ⟨le_min zero_le_one (le_max_left 0 x), min_le_left 1 _⟩

/-- C5 counterexample: in the reduced (face detected, no landmarks)
branch with texture anomaly 0.7 the frame score is 0.55, which exceeds
0.5, yet `is_likely_deepfake` is `False` — the source compares this
branch's score against 0.6, refuting the claimed uniform 0.5 frame
threshold. -/
theorem spec_C5_counterexample :
    (deepfake_process_frame true false 0.7 0 0 0).deepfake_score > 0.5
    ∧ (deepfake_process_frame true false 0.7 0 0 0).is_likely_deepfake = false := by
  constructor
  · show np_clip ((0.7 : ℝ) * 0.5 + 0.2) 0 1 > 0.5
    rw [np_clip_eq_self (by norm_num) (by norm_num)]
    norm_num
  · show decide ((0.7 : ℝ) * 0.5 + 0.2 > 0.6) = false
    rw [decide_eq_false_iff_not]
    norm_num

/-- C5 (amended): for sub-scores in `[0, 1]` the reported frame score is
`0.35·texture + 0.25·blink + 0.2·geometry + 0.2·temporal` with landmarks
and the reduced estimate `0.5·texture + 0.2` without; the frame flag
`is_likely_deepfake` is `score > 0.5` in the full-landmarks branch but
`score > 0.6` in the reduced branch. -/
theorem spec_C5_amended (t b g tmp : ℝ) :
    ((0 ≤ t ∧ t ≤ 1) ∧ (0 ≤ b ∧ b ≤ 1) ∧ (0 ≤ g ∧ g ≤ 1) ∧ (0 ≤ tmp ∧ tmp ≤ 1) →
      (deepfake_process_frame true true t b g tmp).deepfake_score =
        0.35 * t + 0.25 * b + 0.2 * g + 0.2 * tmp
      ∧ (deepfake_process_frame true false t b g tmp).deepfake_score = 0.5 * t + 0.2)
    ∧ ((deepfake_process_frame true true t b g tmp).is_likely_deepfake = true ↔
        0.35 * t + 0.25 * b + 0.2 * g + 0.2 * tmp > 0.5)
    ∧ ((deepfake_process_frame true false t b g tmp).is_likely_deepfake = true ↔
        0.5 * t + 0.2 > 0.6) := by
  refine ⟨?_, ?_, ?_⟩
  · rintro ⟨⟨ht0, ht1⟩, ⟨hb0, hb1⟩, ⟨hg0, hg1⟩, ⟨hp0, hp1⟩⟩
    constructor
    · show np_clip (t * 0.35 + b * 0.25 + g * 0.2 + tmp * 0.2) 0 1 = _
      rw [np_clip_eq_self (by nlinarith) (by nlinarith)]
      ring
    · show np_clip (t * 0.5 + 0.2) 0 1 = _
      rw [np_clip_eq_self (by nlinarith) (by nlinarith)]
      ring
  · show decide (t * 0.35 + b * 0.25 + g * 0.2 + tmp * 0.2 > 0.5) = true ↔ _
    rw [decide_eq_true_eq]
    constructor <;> intro h <;> linarith
  · show decide (t * 0.5 + 0.2 > 0.6) = true ↔ _
    rw [decide_eq_true_eq]
    constructor <;> intro h <;> linarith

/-- C6: the per-frame liveness score is
`0.3·blink_confidence + 0.4·movement_confidence + 0.3·mouth_confidence`,
except that with no landmarks but a detected face it is floored at 0.5;
`is_likely_live` holds exactly when the score exceeds the confidence
threshold, whose default is 0.7. -/
theorem spec_C6 (confidence_threshold : ℝ) (face_detected : Bool)
    (landmarks prev_landmarks : Option (List Point)) (prev_gray : Option (List ℝ))
    (gray : List ℝ) :
    (¬ (landmarks = none ∧ face_detected = true) →
      (liveness_process_frame confidence_threshold face_detected landmarks
          prev_landmarks prev_gray gray).liveness_score =
        0.3 * (liveness_process_frame confidence_threshold face_detected landmarks
          prev_landmarks prev_gray gray).blink_conf +
        0.4 * (liveness_process_frame confidence_threshold face_detected landmarks
          prev_landmarks prev_gray gray).move_conf +
        0.3 * (liveness_process_frame confidence_threshold face_detected landmarks
          prev_landmarks prev_gray gray).mouth_conf)
    ∧ (landmarks = none → face_detected = true →
        (liveness_process_frame confidence_threshold face_detected landmarks
            prev_landmarks prev_gray gray).liveness_score =
          max (0.3 * (liveness_process_frame confidence_threshold face_detected landmarks
              prev_landmarks prev_gray gray).blink_conf +
            0.4 * (liveness_process_frame confidence_threshold face_detected landmarks
              prev_landmarks prev_gray gray).move_conf +
            0.3 * (liveness_process_frame confidence_threshold face_detected landmarks
              prev_landmarks prev_gray gray).mouth_conf) 0.5
        ∧ 0.5 ≤ (liveness_process_frame confidence_threshold face_detected landmarks
            prev_landmarks prev_gray gray).liveness_score)
    ∧ ((liveness_process_frame confidence_threshold face_detected landmarks
          prev_landmarks prev_gray gray).is_likely_live = true ↔
        (liveness_process_frame confidence_threshold face_detected landmarks
          prev_landmarks prev_gray gray).liveness_score > confidence_threshold)
    ∧ confidence_threshold_default = 0.7 := by
  refine ⟨?_, ?_, ?_, rfl⟩
  · intro hn
    rcases landmarks with _ | l
    · have hface : face_detected = false := by
        rcases face_detected with _ | _
        · rfl
        · exact absurd ⟨rfl, rfl⟩ hn
      subst hface
      simp [liveness_process_frame]
      ring
    · rcases hf : face_detected <;> simp [liveness_process_frame] <;> ring
  · rintro rfl rfl
    simp [liveness_process_frame]
    rw [mul_comm]
  · simp [liveness_process_frame, decide_eq_true_eq]

/-! ### Range lemmas for the per-frame signals -/

/-- Euclidean distances are nonnegative. -/
theorem dist3_nonneg (p q : Point) : 0 ≤ dist3 p q := Real.sqrt_nonneg _

/-- `min x 1` lies in `[0, 1]` for nonnegative `x`. -/
theorem min_one_mem (x : ℝ) (hx : 0 ≤ x) : 0 ≤ min x 1 ∧ min x 1 ≤ 1 :=
  ⟨le_min hx zero_le_one, min_le_right _ _⟩

/-- The eye aspect ratio is nonnegative. -/
theorem eye_aspect_ratio_nonneg (eye_points : List Point) :
    0 ≤ eye_aspect_ratio eye_points := by
  unfold eye_aspect_ratio
  dsimp only
  split_ifs with h
  · exact div_nonneg (add_nonneg (dist3_nonneg _ _) (dist3_nonneg _ _)) (by linarith)
  · exact le_refl 0

/-- The blink confidence lies in `[0, 1]`. -/
theorem detect_blink_conf_mem (landmarks : Option (List Point)) :
    0 ≤ (detect_blink landmarks).2 ∧ (detect_blink landmarks).2 ≤ 1 := by
  rcases landmarks with _ | lm
  · exact ⟨le_refl 0, zero_le_one⟩
  · show 0 ≤ (detect_blink (some lm)).2 ∧ (detect_blink (some lm)).2 ≤ 1
    unfold detect_blink
    dsimp only
    split_ifs with h0 h400 hblink
    · exact ⟨le_refl 0, zero_le_one⟩
    · exact ⟨le_refl 0, zero_le_one⟩
    · refine min_one_mem _ ?_
      have hl := eye_aspect_ratio_nonneg (select lm LEFT_EYE)
      have hr := eye_aspect_ratio_nonneg (select lm RIGHT_EYE)
      linarith
    · exact min_one_mem _ (le_refl 0)

/-- The head-movement confidence lies in `[0, 1]`. -/
theorem detect_head_movement_conf_mem (prev cur : Option (List Point)) :
    0 ≤ (detect_head_movement prev cur).2.1 ∧ (detect_head_movement prev cur).2.1 ≤ 1 := by
  rcases cur with _ | c
  · exact ⟨le_refl 0, zero_le_one⟩
  · rcases prev with _ | p
    · exact ⟨le_refl 0, zero_le_one⟩
    · show 0 ≤ (detect_head_movement (some p) (some c)).2.1 ∧ _ ≤ 1
      unfold detect_head_movement
      dsimp only
      split_ifs with h
      · exact min_one_mem _ (div_nonneg (dist3_nonneg _ _) (by norm_num))
      · exact ⟨le_refl 0, zero_le_one⟩

/-- The mouth-open confidence lies in `[0, 1]`. -/
theorem detect_mouth_open_conf_mem (landmarks : Option (List Point)) :
    0 ≤ (detect_mouth_open landmarks).2 ∧ (detect_mouth_open landmarks).2 ≤ 1 := by
  rcases landmarks with _ | lm
  · exact ⟨le_refl 0, zero_le_one⟩
  · show 0 ≤ (detect_mouth_open (some lm)).2 ∧ (detect_mouth_open (some lm)).2 ≤ 1
    unfold detect_mouth_open
    dsimp only
    split_ifs with h400 hopen
    · exact ⟨le_refl 0, zero_le_one⟩
    · exact min_one_mem _ (min_one_mem _
        (div_nonneg (dist3_nonneg _ _) (by norm_num))).1
    · exact min_one_mem _ (le_refl 0)

/-- Every entry of a pointwise-absolute-difference list is nonnegative. -/
theorem zipWith_abs_nonneg (as : List ℝ) :
    ∀ (bs : List ℝ), ∀ x ∈ List.zipWith (fun a b => |a - b|) as bs, 0 ≤ x := by
  induction as with
  | nil => intro bs x hx; simp at hx
  | cons a as ih =>
    intro bs x hx
    cases bs with
    | nil => simp at hx
    | cons b bs =>
      simp only [List.zipWith, List.mem_cons] at hx
      rcases hx with rfl | hx
      · exact abs_nonneg _
      · exact ih bs x hx

/-- An out-of-range read with default `d` is either a list element or `d`. -/
theorem getD_mem_or (l : List ℝ) (i : ℕ) (d : ℝ) :
    l.getD i d ∈ l ∨ l.getD i d = d := by
  by_cases h : i < l.length
  · left
    rw [List.getD_eq_getElem l d h]
    exact List.getElem_mem h
  · right
    exact List.getD_eq_default l d (le_of_not_lt h)

/-- The median of a list of nonnegative values is nonnegative. -/
theorem np_median_nonneg (l : List ℝ) (h : ∀ x ∈ l, 0 ≤ x) : 0 ≤ np_median l := by
  unfold np_median
  have hperm := List.mergeSort_perm l (fun a b => decide (a ≤ b))
  have hs : ∀ x ∈ l.mergeSort (fun a b => decide (a ≤ b)), 0 ≤ x :=
    fun x hx => h x (hperm.mem_iff.mp hx)
  have hg : ∀ i : ℕ, 0 ≤ (l.mergeSort (fun a b => decide (a ≤ b))).getD i 0 := by
    intro i
    rcases getD_mem_or (l.mergeSort (fun a b => decide (a ≤ b))) i 0 with hm | he
    · exact hs _ hm
    · rw [he]
  split_ifs with h0 hodd
  · exact le_refl 0
  · exact hg _
  · have := hg (l.length / 2 - 1)
    have := hg (l.length / 2)
    linarith

/-- The fallback motion confidence lies in `[0, 1]`. -/
theorem detect_motion_conf_mem (prev_gray : Option (List ℝ)) (gray : List ℝ) :
    0 ≤ (detect_motion_in_frame prev_gray gray).1 ∧
    (detect_motion_in_frame prev_gray gray).1 ≤ 1 := by
  rcases prev_gray with _ | pg
  · exact ⟨by norm_num [detect_motion_in_frame], by norm_num [detect_motion_in_frame]⟩
  · have hmed : 0 ≤ np_median (List.zipWith (fun a b => |a - b|) gray pg) :=
      np_median_nonneg _ (zipWith_abs_nonneg gray pg)
    show 0 ≤ (detect_motion_in_frame (some pg) gray).1 ∧ _ ≤ 1
    unfold detect_motion_in_frame
    dsimp only
    exact min_one_mem _ (div_nonneg hmed (by norm_num))

/-- The texture anomaly score lies in `[0, 1]`. -/
theorem texture_anomaly_score_mem (a b c d : ℝ) :
    0 ≤ _compute_texture_anomaly_score a b c d ∧
    _compute_texture_anomaly_score a b c d ≤ 1 :=
  np_clip_mem _

/-- The blink-periodicity anomaly lies in `[0, 1]`. -/
theorem blink_pattern_anomaly_mem (h : List ℝ) :
    0 ≤ _detect_blink_pattern_anomaly h ∧ _detect_blink_pattern_anomaly h ≤ 1 := by
  unfold _detect_blink_pattern_anomaly
  split_ifs with h1 h2
  · exact ⟨le_refl 0, zero_le_one⟩
  · exact ⟨zero_le_one, le_refl 1⟩
  · exact np_clip_mem _

/-- The geometry-consistency anomaly lies in `[0, 1]`. -/
theorem geometry_consistency_mem (ratios : List ℝ) :
    0 ≤ _analyze_geometry_consistency ratios ∧ _analyze_geometry_consistency ratios ≤ 1 := by
  unfold _analyze_geometry_consistency
  split_ifs with h1
  · exact ⟨le_refl 0, zero_le_one⟩
  · exact np_clip_mem _

/-- The temporal anomaly lies in `[0, 1]`. -/
theorem temporal_anomaly_mem (ds : List ℝ) :
    0 ≤ temporal_anomaly_of_diffs ds ∧ temporal_anomaly_of_diffs ds ≤ 1 := by
  unfold temporal_anomaly_of_diffs
  split_ifs with h1
  · exact ⟨le_refl 0, zero_le_one⟩
  · exact np_clip_mem _

/-- The composite per-frame liveness score lies in `[0, 1]`. -/
theorem liveness_score_mem (confidence_threshold : ℝ) (face_detected : Bool)
    (landmarks prev_landmarks : Option (List Point)) (prev_gray : Option (List ℝ))
    (gray : List ℝ) :
    0 ≤ (liveness_process_frame confidence_threshold face_detected landmarks
        prev_landmarks prev_gray gray).liveness_score ∧
    (liveness_process_frame confidence_threshold face_detected landmarks
        prev_landmarks prev_gray gray).liveness_score ≤ 1 := by
  obtain ⟨hmot0, hmot1⟩ := detect_motion_conf_mem prev_gray gray
  rcases landmarks with _ | lm
  · rcases face_detected with _ | _
    · show 0 ≤ (liveness_process_frame confidence_threshold false none
          prev_landmarks prev_gray gray).liveness_score ∧ _ ≤ 1
      unfold liveness_process_frame
      dsimp only
      rw [if_neg (by simp)]
      constructor <;> linarith
    · show 0 ≤ (liveness_process_frame confidence_threshold true none
          prev_landmarks prev_gray gray).liveness_score ∧ _ ≤ 1
      unfold liveness_process_frame
      dsimp only
      rw [if_pos ⟨rfl, rfl⟩]
      constructor
      · exact le_trans (by norm_num) (le_max_right _ _)
      · exact max_le (by linarith) (by norm_num)
  · obtain ⟨hb0, hb1⟩ := detect_blink_conf_mem (some lm)
    obtain ⟨hm0, hm1⟩ := detect_head_movement_conf_mem prev_landmarks (some lm)
    obtain ⟨hmo0, hmo1⟩ := detect_mouth_open_conf_mem (some lm)
    show 0 ≤ (liveness_process_frame confidence_threshold face_detected (some lm)
        prev_landmarks prev_gray gray).liveness_score ∧ _ ≤ 1
    unfold liveness_process_frame
    dsimp only
    rw [if_neg (by simp)]
    constructor <;> linarith

/-- The reported per-frame deepfake score lies in `[0, 1]`. -/
theorem deepfake_score_mem (face_detected landmarks_available : Bool)
    (t b g tmp : ℝ) :
    0 ≤ (deepfake_process_frame face_detected landmarks_available t b g tmp).deepfake_score ∧
    (deepfake_process_frame face_detected landmarks_available t b g tmp).deepfake_score ≤ 1 := by
  rcases face_detected with _ | _ <;> rcases landmarks_available with _ | _ <;>
    simp [deepfake_process_frame, np_clip_mem]

/-- C8: every per-frame signal and score output — the blink, movement,
mouth and fallback-motion confidences, the texture, blink-periodicity,
geometry and temporal anomaly scores, and the composite liveness and
deepfake scores — lies in the closed interval `[0, 1]`, for every input,
including degenerate geometry. -/
theorem spec_C8 :
    (∀ landmarks : Option (List Point),
      0 ≤ (detect_blink landmarks).2 ∧ (detect_blink landmarks).2 ≤ 1)
    ∧ (∀ prev cur : Option (List Point),
        0 ≤ (detect_head_movement prev cur).2.1 ∧ (detect_head_movement prev cur).2.1 ≤ 1)
    ∧ (∀ landmarks : Option (List Point),
        0 ≤ (detect_mouth_open landmarks).2 ∧ (detect_mouth_open landmarks).2 ≤ 1)
    ∧ (∀ (prev_gray : Option (List ℝ)) (gray : List ℝ),
        0 ≤ (detect_motion_in_frame prev_gray gray).1 ∧
        (detect_motion_in_frame prev_gray gray).1 ≤ 1)
    ∧ (∀ a b c d : ℝ,
        0 ≤ _compute_texture_anomaly_score a b c d ∧
        _compute_texture_anomaly_score a b c d ≤ 1)
    ∧ (∀ h : List ℝ,
        0 ≤ _detect_blink_pattern_anomaly h ∧ _detect_blink_pattern_anomaly h ≤ 1)
    ∧ (∀ ratios : List ℝ,
        0 ≤ _analyze_geometry_consistency ratios ∧ _analyze_geometry_consistency ratios ≤ 1)
    ∧ (∀ ds : List ℝ,
        0 ≤ temporal_anomaly_of_diffs ds ∧ temporal_anomaly_of_diffs ds ≤ 1)
    ∧ (∀ (ct : ℝ) (fd : Bool) (lm pl : Option (List Point)) (pg : Option (List ℝ))
        (g : List ℝ),
        0 ≤ (liveness_process_frame ct fd lm pl pg g).liveness_score ∧
        (liveness_process_frame ct fd lm pl pg g).liveness_score ≤ 1)
    ∧ (∀ (fd la : Bool) (t b g tmp : ℝ),
        0 ≤ (deepfake_process_frame fd la t b g tmp).deepfake_score ∧
        (deepfake_process_frame fd la t b g tmp).deepfake_score ≤ 1) :=
  ⟨detect_blink_conf_mem, detect_head_movement_conf_mem, detect_mouth_open_conf_mem,
   detect_motion_conf_mem, texture_anomaly_score_mem, blink_pattern_anomaly_mem,
   geometry_consistency_mem, temporal_anomaly_mem, liveness_score_mem, deepfake_score_mem⟩

/-! ### Autocorrelation facts for the blink-periodicity anomaly -/

/-- A mapped list sum as a `Finset.range` sum over default reads. -/
theorem list_map_sum_getD (f : ℝ → ℝ) (l : List ℝ) :
    (l.map f).sum = (Finset.range l.length).sum (fun i => f (l.getD i 0)) := by
  induction l with
  | nil => simp
  | cons x xs ih =>
    simp only [List.map_cons, List.sum_cons, List.length_cons]
    rw [Finset.sum_range_succ']
    simp [ih]
    ring

/-- A list sum as a `Finset.range` sum over default reads. -/
theorem list_sum_getD (l : List ℝ) :
    l.sum = (Finset.range l.length).sum (fun i => l.getD i 0) := by
  simpa using list_map_sum_getD id l

/-- The lag-0 autocorrelation is the sum of squares. -/
theorem autocorr_zero (xs : List ℝ) :
    autocorr xs 0 = (Finset.range xs.length).sum (fun i => (xs.getD i 0) ^ 2) := by
  unfold autocorr
  simp [sq]

/-- The lag-0 autocorrelation is nonnegative. -/
theorem autocorr_zero_nonneg (xs : List ℝ) : 0 ≤ autocorr xs 0 := by
  rw [autocorr_zero]
  exact Finset.sum_nonneg (fun i _ => sq_nonneg _)

/-- A vanishing lag-0 autocorrelation forces a vanishing variance. -/
theorem variance_eq_zero_of_autocorr (xs : List ℝ) (h : autocorr xs 0 = 0) :
    np_variance xs = 0 := by
  rw [autocorr_zero] at h
  have hzero : ∀ i ∈ Finset.range xs.length, (xs.getD i 0) ^ 2 = 0 :=
    (Finset.sum_eq_zero_iff_of_nonneg (fun i _ => sq_nonneg _)).mp h
  have hget : ∀ i ∈ Finset.range xs.length, xs.getD i 0 = 0 :=
    fun i hi => pow_eq_zero_iff (n := 2) (by norm_num) |>.mp (hzero i hi)
  have hsum : xs.sum = 0 := by
    rw [list_sum_getD]
    exact Finset.sum_eq_zero hget
  have hmean : np_mean xs = 0 := by
    unfold np_mean
    rw [hsum, zero_div]
  unfold np_variance
  rw [list_map_sum_getD, Finset.sum_eq_zero, zero_div]
  intro i hi
  rw [hmean, hget i hi]
  norm_num

/-- Every lag of the raw autocorrelation is bounded by the lag 0. -/
theorem autocorr_le_lag_zero (xs : List ℝ) (k : ℕ) :
    autocorr xs k ≤ autocorr xs 0 := by
  have hS := autocorr_zero xs
  have hpoint : ∀ i : ℕ, xs.getD i 0 * xs.getD (i + k) 0 ≤
      ((xs.getD i 0) ^ 2 + (xs.getD (i + k) 0) ^ 2) / 2 := by
    intro i
    nlinarith [sq_nonneg (xs.getD i 0 - xs.getD (i + k) 0)]
  have hb1 : (Finset.range (xs.length - k)).sum (fun i => (xs.getD i 0) ^ 2) ≤
      (Finset.range xs.length).sum (fun i => (xs.getD i 0) ^ 2) :=
    Finset.sum_le_sum_of_subset_of_nonneg
      (Finset.range_subset.mpr (Nat.sub_le _ _)) (fun i _ _ => sq_nonneg _)
  have hb2 : (Finset.range (xs.length - k)).sum (fun i => (xs.getD (i + k) 0) ^ 2) ≤
      (Finset.range xs.length).sum (fun i => (xs.getD i 0) ^ 2) := by
    rcases le_or_lt k xs.length with hk | hk
    · have hre : (Finset.range (xs.length - k)).sum (fun i => (xs.getD (i + k) 0) ^ 2) =
          (Finset.Ico k xs.length).sum (fun j => (xs.getD j 0) ^ 2) := by
        rw [Finset.sum_Ico_eq_sum_range]
        exact Finset.sum_congr rfl (fun i _ => by rw [add_comm])
      rw [hre]
      have hsub : Finset.Ico k xs.length ⊆ Finset.range xs.length := by
        intro j hj
        rw [Finset.mem_range]
        exact (Finset.mem_Ico.mp hj).2
      exact Finset.sum_le_sum_of_subset_of_nonneg hsub (fun i _ _ => sq_nonneg _)
    · have : xs.length - k = 0 := by omega
      rw [this]
      simp
      exact Finset.sum_nonneg (fun i _ => sq_nonneg _)
  calc autocorr xs k
      ≤ (Finset.range (xs.length - k)).sum
          (fun i => ((xs.getD i 0) ^ 2 + (xs.getD (i + k) 0) ^ 2) / 2) :=
        Finset.sum_le_sum (fun i _ => hpoint i)
    _ = ((Finset.range (xs.length - k)).sum (fun i => (xs.getD i 0) ^ 2) +
         (Finset.range (xs.length - k)).sum (fun i => (xs.getD (i + k) 0) ^ 2)) / 2 := by
        rw [← Finset.sum_div, ← Finset.sum_add_distrib]
    _ ≤ ((Finset.range xs.length).sum (fun i => (xs.getD i 0) ^ 2) +
         (Finset.range xs.length).sum (fun i => (xs.getD i 0) ^ 2)) / 2 := by
        have := add_le_add hb1 hb2
        linarith
    _ = autocorr xs 0 := by
        rw [hS]
        ring

/-- A fold of `max` stays below any common upper bound. -/
theorem foldl_max_le (b : ℝ) : ∀ (xs : List ℝ) (x : ℝ), x ≤ b → (∀ y ∈ xs, y ≤ b) →
    xs.foldl max x ≤ b := by
  intro xs
  induction xs with
  | nil => intro x hx _; simpa using hx
  | cons y ys ih =>
    intro x hx hall
    simp only [List.foldl_cons]
    exact ih (max x y) (max_le hx (hall y (by simp)))
      (fun z hz => hall z (by simp [hz]))

/-- `np.max` stays below any nonnegative common upper bound. -/
theorem list_max_le (l : List ℝ) (b : ℝ) (hb : 0 ≤ b) (h : ∀ x ∈ l, x ≤ b) :
    list_max l ≤ b := by
  cases l with
  | nil => simpa [list_max] using hb
  | cons x xs =>
    exact foldl_max_le b xs x (h x (by simp)) (fun y hy => h y (by simp [hy]))

/-- The variance of a constant history vanishes. -/
theorem np_variance_replicate (n : ℕ) (c : ℝ) (hn : n ≠ 0) :
    np_variance (List.replicate n c) = 0 := by
  have hne : (n : ℝ) ≠ 0 := Nat.cast_ne_zero.mpr hn
  have hmean : np_mean (List.replicate n c) = c := by
    unfold np_mean
    rw [List.sum_replicate, List.length_replicate, nsmul_eq_mul,
      mul_comm, mul_div_assoc, div_self hne, mul_one]
  unfold np_variance
  rw [hmean]
  simp

/-- C9 counterexample: a 20-sample history of nineteen zeros and one
`1e-7` has nonzero variance (`4.75e-16`), but its standard deviation is
below the `1e-6` flatness cutoff, so the source returns anomaly `1.0` —
refuting "strictly less than 1.0 for every history of nonzero
variance". -/
theorem spec_C9_counterexample :
    np_variance [0, 0, 0, 0, 0, 0, 0, 0, 0, 0, 0, 0, 0, 0, 0, 0, 0, 0, 0, (1e-7 : ℝ)] ≠ 0
    ∧ _detect_blink_pattern_anomaly
        [0, 0, 0, 0, 0, 0, 0, 0, 0, 0, 0, 0, 0, 0, 0, 0, 0, 0, 0, (1e-7 : ℝ)] = 1 := by
  have hvar : np_variance
      [0, 0, 0, 0, 0, 0, 0, 0, 0, 0, 0, 0, 0, 0, 0, 0, 0, 0, 0, (1e-7 : ℝ)] =
      4.75e-16 := by
    norm_num [np_variance, np_mean]
  constructor
  · rw [hvar]
    norm_num
  · unfold _detect_blink_pattern_anomaly
    rw [if_neg (by norm_num), if_pos]
    rw [np_std, hvar, Real.sqrt_lt' (by norm_num : (0 : ℝ) < 1e-6)]
    norm_num

/-- C9 (amended): the blink-periodicity anomaly is 0 for fewer than 20
samples; with at least 20 samples it is exactly 1.0 whenever the
history's standard deviation is below `1e-6` — in particular for every
perfectly constant history — and otherwise equals
`clip(peak - 0.5, 0, 1)` for the maximal normalized autocorrelation over
lags `[10, min(50, length))`, which is at most 0.5 and hence strictly
below 1.0 for every history with standard deviation at least `1e-6`. -/
theorem spec_C9_amended (blink_history : List ℝ) :
    (blink_history.length < 20 → _detect_blink_pattern_anomaly blink_history = 0)
    ∧ (20 ≤ blink_history.length → np_std blink_history < 1e-6 →
        _detect_blink_pattern_anomaly blink_history = 1)
    ∧ (∀ c : ℝ, 20 ≤ blink_history.length →
        blink_history = List.replicate blink_history.length c →
        _detect_blink_pattern_anomaly blink_history = 1)
    ∧ (20 ≤ blink_history.length → 1e-6 ≤ np_std blink_history →
        _detect_blink_pattern_anomaly blink_history =
          np_clip (list_max ((lag_window blink_history.length).map
            (fun k => autocorr blink_history k / autocorr blink_history 0)) - 0.5) 0 1
        ∧ _detect_blink_pattern_anomaly blink_history ≤ 0.5
        ∧ _detect_blink_pattern_anomaly blink_history < 1) := by
  refine ⟨?_, ?_, ?_, ?_⟩
  · intro h
    unfold _detect_blink_pattern_anomaly
    rw [if_pos h]
  · intro h20 hstd
    unfold _detect_blink_pattern_anomaly
    rw [if_neg (not_lt.mpr h20), if_pos hstd]
  · intro c h20 hrep
    unfold _detect_blink_pattern_anomaly
    rw [if_neg (not_lt.mpr h20), if_pos]
    rw [np_std]
    conv in np_variance blink_history => rw [hrep]
    rw [np_variance_replicate _ _ (by omega), Real.sqrt_zero]
    norm_num
  · intro h20 hstd
    have hvarpos : autocorr blink_history 0 ≠ 0 := by
      intro h0
      rw [np_std, variance_eq_zero_of_autocorr _ h0, Real.sqrt_zero] at hstd
      norm_num at hstd
    have hpos : 0 < autocorr blink_history 0 :=
      lt_of_le_of_ne (autocorr_zero_nonneg _) (Ne.symm hvarpos)
    have hratio : ∀ r ∈ (lag_window blink_history.length).map
        (fun k => autocorr blink_history k / autocorr blink_history 0), r ≤ 1 := by
      intro r hr
      obtain ⟨k, _, rfl⟩ := List.mem_map.mp hr
      exact (div_le_one hpos).mpr (autocorr_le_lag_zero _ _)
    have hpeak : list_max ((lag_window blink_history.length).map
        (fun k => autocorr blink_history k / autocorr blink_history 0)) ≤ 1 :=
      list_max_le _ 1 zero_le_one hratio
    have heq : _detect_blink_pattern_anomaly blink_history =
        np_clip (list_max ((lag_window blink_history.length).map
          (fun k => autocorr blink_history k / autocorr blink_history 0)) - 0.5) 0 1 := by
      unfold _detect_blink_pattern_anomaly
      rw [if_neg (not_lt.mpr h20), if_neg (not_lt.mpr hstd)]
    have hle : _detect_blink_pattern_anomaly blink_history ≤ 0.5 := by
      rw [heq]
      unfold np_clip
      refine le_trans (min_le_right _ _) (max_le (by norm_num) (by linarith))
    exact ⟨heq, hle, lt_of_le_of_lt hle (by norm_num)⟩

end KYC
